import Mathlib

/-!
# SimAccess1 proxy (bluez/profile/sap/gen_SimAccess1.go)

A shallow embedding of the generated `SimAccess1` D-Bus proxy.  The proxy is a
Go struct that is mutated through a pointer; here every method takes the proxy
value and the outside world and returns the new ones.  The bus client, the
object manager and the channels live outside the file that is embedded: their
behaviour is a parameter (`Bus`), and every call the proxy makes on them is
recorded in the world's trace, in program order.

Conventions
* a method with a pointer receiver returns its Go results, then the proxy and
  the world as the call leaves them;
* a Go pointer or channel that can be nil is an `Option`; `none` is nil;
* a Go `error` result is an `Option Error`; `none` is the nil error;
* a call that does not return normally is `GoResult.panic` (run-time panic or
  fatal error) or `GoResult.blocked` (the goroutine waits forever);
* a channel send has the outcome the outside gives it (`Bus.send`): it
  completes, or it blocks (no receiver ready and no room in the buffer), or it
  panics (the channel has been closed); only a completed send is recorded in
  the trace;
* calls into the bus client return (they are total functions of `Bus`);
* the proxy's `client` pointer is not nil, as for every proxy built by
  `NewSimAccess1`.
-/

namespace Sap

/-! ## Go-level data -/

/-- Outcome of a Go call: normal return, run-time panic, or blocking forever. -/
inductive GoResult (α : Type) where
  | ok (v : α)
  | panic (msg : String)
  | blocked
  deriving Repr

/-- Sequencing of Go calls: the first abnormal outcome ends the call. -/
def GoResult.bind {α β : Type} (r : GoResult α) (f : α → GoResult β) : GoResult β :=
  match r with
  | .ok v => f v
  | .panic m => .panic m
  | .blocked => .blocked

/-- Modelled from the spec: the error taxonomy of §7.  The source file declares
no error type; every error value it returns comes from the bus client. -/
inductive Error where
  | TransportError (msg : String)
  | TypeMismatchError
  | OperationFailed
  | ClosedError
  deriving DecidableEq, Repr

/-- A dynamically typed Go value (`interface{}`), as carried by a D-Bus variant. -/
inductive GoValue where
  | null
  | bool (b : Bool)
  | str (s : String)
  | int (i : Int)
  deriving DecidableEq, Repr

/-- The type `dbus.Variant`; `value` is what `Value()` returns. -/
structure Variant where
  value : GoValue
  deriving DecidableEq, Repr

abbrev ObjectPath := String

/-- The type `dbus.Signal` (only nil signals are sent by the proxy itself). -/
structure Signal where
  path : ObjectPath
  name : String
  body : List GoValue
  deriving DecidableEq, Repr

/-- A non-nil `chan *dbus.Signal`, identified by its address. -/
structure Chan where
  id : Nat
  deriving DecidableEq, Repr

/-- The bus selector of `bluez.Config`. -/
inductive BusType where
  | SessionBus
  | SystemBus
  deriving DecidableEq, Repr

/-- The type `bluez.Config`. -/
structure Config where
  Name : String
  Iface : String
  Path : ObjectPath
  Bus : BusType
  deriving DecidableEq, Repr

/-- The type `bluez.Client` as far as the proxy reads it: its `Config`.  The
connection itself is part of the bus state. -/
structure Client where
  Config : Config
  deriving DecidableEq, Repr

/-- A non-nil `*bluez.ObjectManager`, identified by its address. -/
structure ObjectManager where
  id : Nat
  deriving DecidableEq, Repr

/-- The write side of `sync.RWMutex`: held or free. -/
structure RWMutex where
  held : Bool
  deriving DecidableEq, Repr

/-- SimAccess1Properties contains the exposed properties of an interface. -/
structure SimAccess1Properties where
  lock : RWMutex
  Connected : Bool
  deriving DecidableEq, Repr

/-- The proxy struct `SimAccess1`. -/
structure SimAccess1 where
  client : Client
  propertiesSignal : Option Chan
  objectManagerSignal : Option Chan
  objectManager : Option ObjectManager
  Properties : Option SimAccess1Properties
  watchPropertiesChannel : Option Chan
  deriving DecidableEq, Repr

/-- The program point of a channel send: line 218 (`unregisterPropertiesSignal`)
or line 138 (the cancel closure of `GetObjectManagerSignal`). -/
inductive SendSite where
  | propertiesSignal
  | objectManagerSignal
  deriving DecidableEq, Repr

/-- The effects of the proxy on the outside, one event per statement. -/
inductive Event where
  | lock
  | unlock
  | clientGetProperties
  | clientGetProperty (name : String)
  | clientSetProperty (name : String) (value : GoValue)
  | clientCall (method : String)
  | clientRegister (path : ObjectPath) (iface : String) (s : Option Chan) (err : Option Error)
  | clientDisconnect
  | getObjectManager
  | omRegister (s : Option Chan) (err : Option Error)
  | omUnregister (ch : Chan)
  | send (site : SendSite) (ch : Chan) (sig : Option Signal)
  deriving DecidableEq, Repr

/-- Behaviour of everything the proxy calls that is declared outside the
embedded file: the methods of `*bluez.Client`, `bluez.GetObjectManager` and the
methods of `*bluez.ObjectManager`, over a state `σ` of the outside.

`GetProperties` is `client.GetProperties(a.Properties)`: it receives the
`Connected` field and returns the field as deserialisation leaves it (the
`lock` field is tagged `dbus:"ignore"`).  `Call` is `client.Call(m, 0).Store()`.
`send` is the Go statement `ch <- sig`: whether the channel has a receiver,
room in its buffer, or has been closed is part of the state of the outside. -/
structure Bus (σ : Type) where
  GetProperties : σ → Client → Bool → σ × Bool × Option Error
  GetProperty : σ → Client → String → σ × Variant × Option Error
  SetProperty : σ → Client → String → GoValue → σ × Option Error
  Call : σ → Client → String → σ × Option Error
  Register : σ → Client → ObjectPath → String → σ × Option Chan × Option Error
  Disconnect : σ → Client → σ
  GetObjectManager : σ → σ × Option ObjectManager × Option Error
  omRegister : σ → Option ObjectManager → σ × Option Chan × Option Error
  omUnregister : σ → Option ObjectManager → Chan → σ
  send : σ → Chan → Option Signal → GoResult σ

/-- The outside world: the state of the bus side and the trace of the proxy's
effects so far. -/
structure World (σ : Type) where
  bus : σ
  trace : List Event

/-- Record an event and move the bus side to state `s`. -/
def World.record {σ : Type} (w : World σ) (s : σ) (e : Event) : World σ :=
  { bus := s, trace := w.trace ++ [e] }

/-- Record an event that leaves the bus side alone. -/
def World.emit {σ : Type} (w : World σ) (e : Event) : World σ :=
  { bus := w.bus, trace := w.trace ++ [e] }

/-! ## The embedded file -/

def SimAccess1Interface : String := "org.bluez.SimAccess1"

/-- Modelled from the spec: the constant `bluez.PropertiesInterface`, declared
outside the embedded file; it names "this object's property interface", the
standard D-Bus properties interface. -/
def PropertiesInterface : String := "org.freedesktop.DBus.Properties"

/-- Modelled from the spec: the constructor `bluez.NewClient`, declared outside
the embedded file; it "builds the identity" (service name, interface name,
object path), which is immutable afterwards: the client keeps the `Config` it
is given. -/
def NewClient (config : Config) : Client :=
  { Config := config }

/-- Lock access to properties. -/
def SimAccess1Properties.Lock {σ : Type} (p : SimAccess1Properties) (w : World σ) :
    GoResult (SimAccess1Properties × World σ) :=
  if p.lock.held then .blocked
  else .ok ({ p with lock := { held := true } }, w.emit .lock)

/-- Unlock access to properties. -/
def SimAccess1Properties.Unlock {σ : Type} (p : SimAccess1Properties) (w : World σ) :
    GoResult (SimAccess1Properties × World σ) :=
  if p.lock.held then .ok ({ p with lock := { held := false } }, w.emit .unlock)
  else .panic "sync: Unlock of unlocked RWMutex"

/-- GetProperty get a property. -/
def SimAccess1.GetProperty {σ : Type} (B : Bus σ) (a : SimAccess1) (name : String)
    (w : World σ) : (Variant × Option Error) × SimAccess1 × World σ :=
  let r := B.GetProperty w.bus a.client name
  ((r.2.1, r.2.2), a, w.record r.1 (.clientGetProperty name))

/-- SetProperty set a property. -/
def SimAccess1.SetProperty {σ : Type} (B : Bus σ) (a : SimAccess1) (name : String)
    (value : GoValue) (w : World σ) : Option Error × SimAccess1 × World σ :=
  let r := B.SetProperty w.bus a.client name value
  (r.2, a, w.record r.1 (.clientSetProperty name value))

/-- GetConnected get Connected value. -/
def SimAccess1.GetConnected {σ : Type} (B : Bus σ) (a : SimAccess1) (w : World σ) :
    GoResult ((Bool × Option Error) × SimAccess1 × World σ) :=
  let r := a.GetProperty B "Connected" w
  match r.1.2 with
  | some err => .ok ((false, some err), r.2)
  | none =>
    match r.1.1.value with
    | .bool b => .ok ((b, none), r.2)
    | _ => .panic "interface conversion: value is not bool"

/-- Unregister for changes signalling.  The send comes first: when it blocks
or panics, the handle has not been cleared. -/
def SimAccess1.unregisterPropertiesSignal {σ : Type} (B : Bus σ) (a : SimAccess1)
    (w : World σ) : GoResult (SimAccess1 × World σ) :=
  match a.propertiesSignal with
  | some ch =>
    (B.send w.bus ch none).bind fun s =>
      let w1 := w.record s (.send .propertiesSignal ch none)
      .ok ({ a with propertiesSignal := none }, w1)
  | none => .ok (a, w)

/-- Close the connection. -/
def SimAccess1.Close {σ : Type} (B : Bus σ) (a : SimAccess1) (w : World σ) :
    GoResult (SimAccess1 × World σ) :=
  (a.unregisterPropertiesSignal B w).bind fun r =>
    .ok (r.1, r.2.record (B.Disconnect r.2.bus r.1.client) .clientDisconnect)

/-- Path return SimAccess1 object path. -/
def SimAccess1.Path (a : SimAccess1) : ObjectPath :=
  a.client.Config.Path

/-- Interface return SimAccess1 interface. -/
def SimAccess1.Interface (a : SimAccess1) : String :=
  a.client.Config.Iface

/-- The closure `cancel` built by `GetObjectManagerSignal`; it captures the
proxy pointer, so it acts on the proxy as it is when it is called.  The send
comes first: when it blocks or panics, `Unregister` has not been called and the
handle has not been cleared. -/
def SimAccess1.cancel {σ : Type} (B : Bus σ) (a : SimAccess1) (w : World σ) :
    GoResult (SimAccess1 × World σ) :=
  match a.objectManagerSignal with
  | none => .ok (a, w)
  | some ch =>
    (B.send w.bus ch none).bind fun s =>
      let w1 := w.record s (.send .objectManagerSignal ch none)
      let w2 := w1.record (B.omUnregister w1.bus a.objectManager ch) (.omUnregister ch)
      .ok ({ a with objectManagerSignal := none }, w2)

/-- A returned `func()`: the cancel closure, to be run on the proxy. -/
abbrev CancelFunc (σ : Type) := SimAccess1 → World σ → GoResult (SimAccess1 × World σ)

/-- GetObjectManagerSignal return a channel for receiving updates from the
ObjectManager.  The result is `(channel, cancel, err)`. -/
def SimAccess1.GetObjectManagerSignal {σ : Type} (B : Bus σ) (a : SimAccess1) (w : World σ) :
    (Option Chan × Option (CancelFunc σ) × Option Error) × SimAccess1 × World σ :=
  match a.objectManagerSignal with
  | some _ => ((a.objectManagerSignal, some (SimAccess1.cancel B), none), a, w)
  | none =>
    let registerOn (a1 : SimAccess1) (w1 : World σ) :
        (Option Chan × Option (CancelFunc σ) × Option Error) × SimAccess1 × World σ :=
      let r := B.omRegister w1.bus a1.objectManager
      let w2 := w1.record r.1 (.omRegister r.2.1 r.2.2)
      match r.2.2 with
      | some err => ((none, none, some err), a1, w2)
      | none =>
        let a2 := { a1 with objectManagerSignal := r.2.1 }
        ((a2.objectManagerSignal, some (SimAccess1.cancel B), none), a2, w2)
    match a.objectManager with
    | none =>
      let g := B.GetObjectManager w.bus
      let w1 := w.record g.1 .getObjectManager
      match g.2.2 with
      | some err => ((none, none, some err), a, w1)
      | none => registerOn { a with objectManager := g.2.1 } w1
    | some _ => registerOn a w

/-- GetWatchPropertiesChannel return the dbus channel to receive properties interface. -/
def SimAccess1.GetWatchPropertiesChannel (a : SimAccess1) : Option Chan :=
  a.watchPropertiesChannel

/-- SetWatchPropertiesChannel set the dbus channel to receive properties interface. -/
def SimAccess1.SetWatchPropertiesChannel (a : SimAccess1) (c : Option Chan) : SimAccess1 :=
  { a with watchPropertiesChannel := c }

/-- GetProperties load all available properties.  The result is
`(a.Properties, err)`. -/
def SimAccess1.GetProperties {σ : Type} (B : Bus σ) (a : SimAccess1) (w : World σ) :
    GoResult ((Option SimAccess1Properties × Option Error) × SimAccess1 × World σ) :=
  match a.Properties with
  | none => .panic "invalid memory address or nil pointer dereference"
  | some p =>
    (p.Lock w).bind fun (p1, w1) =>
      let r := B.GetProperties w1.bus a.client p1.Connected
      let p2 := { p1 with Connected := r.2.1 }
      let w2 := w1.record r.1 .clientGetProperties
      (p2.Unlock w2).bind fun (p3, w3) =>
        let a3 := { a with Properties := some p3 }
        .ok ((a3.Properties, r.2.2), a3, w3)

/-- GetPropertiesSignal return a channel for receiving udpdates on property changes. -/
def SimAccess1.GetPropertiesSignal {σ : Type} (B : Bus σ) (a : SimAccess1) (w : World σ) :
    (Option Chan × Option Error) × SimAccess1 × World σ :=
  match a.propertiesSignal with
  | none =>
    let r := B.Register w.bus a.client a.client.Config.Path PropertiesInterface
    let w1 := w.record r.1 (.clientRegister a.client.Config.Path PropertiesInterface r.2.1 r.2.2)
    match r.2.2 with
    | some err => ((none, some err), a, w1)
    | none =>
      let a1 := { a with propertiesSignal := r.2.1 }
      ((a1.propertiesSignal, none), a1, w1)
  | some _ => ((a.propertiesSignal, none), a, w)

/-- Disconnect disconnects SAP client from the server. -/
def SimAccess1.Disconnect {σ : Type} (B : Bus σ) (a : SimAccess1) (w : World σ) :
    Option Error × SimAccess1 × World σ :=
  let r := B.Call w.bus a.client "Disconnect"
  (r.2, a, w.record r.1 (.clientCall "Disconnect"))

/-- NewSimAccess1 create a new instance of SimAccess1.  The result is
`(proxy, err)`. -/
def NewSimAccess1 {σ : Type} (B : Bus σ) (objectPath : ObjectPath) (w : World σ) :
    GoResult ((Option SimAccess1 × Option Error) × World σ) :=
  let a : SimAccess1 :=
    { client := NewClient
        { Name := "org.bluez", Iface := SimAccess1Interface, Path := objectPath,
          Bus := .SystemBus }
      propertiesSignal := none
      objectManagerSignal := none
      objectManager := none
      Properties := some { lock := { held := false }, Connected := false }
      watchPropertiesChannel := none }
  (a.GetProperties B w).bind fun (r, a1, w1) =>
    match r.2 with
    | some err => .ok ((none, some err), w1)
    | none => .ok ((some a1, none), w1)

/-! ## Sequences of calls -/

/-- The three calls that forward to the bus client and return only an error. -/
inductive Call where
  | GetProperty (name : String)
  | SetProperty (name : String) (value : GoValue)
  | Disconnect
  deriving DecidableEq, Repr

/-- Run one forwarding call; the result is `(err, proxy, world)`. -/
def Call.run {σ : Type} (B : Bus σ) (c : Call) (a : SimAccess1) (w : World σ) :
    Option Error × SimAccess1 × World σ :=
  match c with
  | .GetProperty name => let r := a.GetProperty B name w; (r.1.2, r.2)
  | .SetProperty name value => a.SetProperty B name value w
  | .Disconnect => a.Disconnect B w

/-- The subscription operations of the proxy; `cancel` is a call of a cancel
function returned by `GetObjectManagerSignal`. -/
inductive Op where
  | GetPropertiesSignal
  | unregisterPropertiesSignal
  | Close
  | GetObjectManagerSignal
  | cancel
  deriving DecidableEq, Repr

/-- The outcome of one subscription operation, dropping its Go results. -/
def Op.call {σ : Type} (B : Bus σ) (op : Op) (st : SimAccess1 × World σ) :
    GoResult (SimAccess1 × World σ) :=
  match op with
  | .GetPropertiesSignal => .ok (st.1.GetPropertiesSignal B st.2).2
  | .unregisterPropertiesSignal => st.1.unregisterPropertiesSignal B st.2
  | .Close => st.1.Close B st.2
  | .GetObjectManagerSignal => .ok (st.1.GetObjectManagerSignal B st.2).2
  | .cancel => st.1.cancel B st.2

/-- The proxy and the world after one subscription operation.  After a normal
return they are what the operation leaves.  An operation that panics or blocks
does so in its send, which is its first effect (lines 218 and 138): the proxy
and the world are then as they were before the call, for a caller that
recovers the panic and for every other goroutine. -/
def Op.run {σ : Type} (B : Bus σ) (op : Op) (st : SimAccess1 × World σ) :
    SimAccess1 × World σ :=
  match op.call B st with
  | .ok st1 => st1
  | .panic _ => st
  | .blocked => st

/-- Run subscription operations one after the other. -/
def runOps {σ : Type} (B : Bus σ) (ops : List Op) (st : SimAccess1 × World σ) :
    SimAccess1 × World σ :=
  ops.foldl (fun s op => op.run B s) st

/-- A successful `client.Register`: it returned a channel and a nil error. -/
@[simp] def Event.isPropertiesRegistration : Event → Bool
  | .clientRegister _ _ (some _) none => true
  | _ => false

/-- Any call of `client.Register`. -/
@[simp] def Event.isClientRegister : Event → Bool
  | .clientRegister _ _ _ _ => true
  | _ => false

/-- The termination sentinel of the property-change subscription (line 218). -/
@[simp] def Event.isPropertiesSentinel : Event → Bool
  | .send .propertiesSignal _ none => true
  | _ => false

/-- A successful `objectManager.Register`. -/
@[simp] def Event.isObjectManagerRegistration : Event → Bool
  | .omRegister (some _) none => true
  | _ => false

/-- Any call of `objectManager.Register`. -/
@[simp] def Event.isObjectManagerRegister : Event → Bool
  | .omRegister _ _ => true
  | _ => false

/-- The termination sentinel of the object-manager subscription (line 138). -/
@[simp] def Event.isObjectManagerSentinel : Event → Bool
  | .send .objectManagerSignal _ none => true
  | _ => false

/-- Property-change registrations that are active after a trace: the
successful registrations less the sentinels sent. -/
def activePropertiesRegistrations (t : List Event) : Int :=
  (t.countP Event.isPropertiesRegistration : Int) - t.countP Event.isPropertiesSentinel

/-- Object-manager registrations that are active after a trace. -/
def activeObjectManagerRegistrations (t : List Event) : Int :=
  (t.countP Event.isObjectManagerRegistration : Int) - t.countP Event.isObjectManagerSentinel

/-- The registrations that are active after the trace are exactly the cached
handles: one per handle that is not nil, none otherwise. -/
def Balanced {σ : Type} (st : SimAccess1 × World σ) : Prop :=
  activePropertiesRegistrations st.2.trace = (if st.1.propertiesSignal.isSome then 1 else 0) ∧
  activeObjectManagerRegistrations st.2.trace =
    (if st.1.objectManagerSignal.isSome then 1 else 0)

/-- State of a test remote: whether the client's connection is open, the
remote value of `Connected`, and the address of the next channel. -/
structure Remote where
  connected : Bool
  value : GoValue
  next : Nat
  deriving DecidableEq, Repr

/-- A bus client that connects again on demand: every call opens the
connection if it is closed and then serves the remote object. -/
def lazyBus : Bus Remote where
  GetProperties s _ old :=
    match s.value with
    | .bool b => ({ s with connected := true }, b, none)
    | _ => ({ s with connected := true }, old, some (.TransportError "cannot decode Connected"))
  GetProperty s _ name :=
    if name = "Connected" then ({ s with connected := true }, { value := s.value }, none)
    else ({ s with connected := true }, { value := .null }, some (.TransportError "no such property"))
  SetProperty s _ name v :=
    if name = "Connected" then ({ s with connected := true, value := v }, none)
    else ({ s with connected := true }, some (.TransportError "no such property"))
  Call s _ _ := ({ s with connected := true }, none)
  Register s _ _ _ := ({ s with connected := true, next := s.next + 1 }, some { id := s.next }, none)
  Disconnect s _ := { s with connected := false }
  GetObjectManager s := (s, some { id := 0 }, none)
  omRegister s _ := ({ s with next := s.next + 1 }, some { id := s.next }, none)
  omUnregister s _ _ := s
  send s _ _ := .ok s

/-- A bus client that enforces the Closed state: once disconnected, every call
fails with `ClosedError`. -/
def strictBus : Bus Remote where
  GetProperties s _ old :=
    if s.connected then
      match s.value with
      | .bool b => (s, b, none)
      | _ => (s, old, some (.TransportError "cannot decode Connected"))
    else (s, old, some .ClosedError)
  GetProperty s _ name :=
    if s.connected then
      if name = "Connected" then (s, { value := s.value }, none)
      else (s, { value := .null }, some (.TransportError "no such property"))
    else (s, { value := .null }, some .ClosedError)
  SetProperty s _ name v :=
    if s.connected then
      if name = "Connected" then ({ s with value := v }, none)
      else (s, some (.TransportError "no such property"))
    else (s, some .ClosedError)
  Call s _ _ := if s.connected then (s, none) else (s, some .ClosedError)
  Register s _ _ _ :=
    if s.connected then ({ s with next := s.next + 1 }, some { id := s.next }, none)
    else (s, none, some .ClosedError)
  Disconnect s _ := { s with connected := false }
  GetObjectManager s := (s, some { id := 0 }, none)
  omRegister s _ := ({ s with next := s.next + 1 }, some { id := s.next }, none)
  omUnregister s _ _ := s
  send s _ _ := .ok s

/-- A remote object whose bulk fetch succeeds while the single read of
`Connected` is refused; its state never changes. -/
def bulkOnlyBus : Bus Unit where
  GetProperties _ _ _ := ((), true, none)
  GetProperty _ _ _ := ((), { value := .null }, some (.TransportError "access denied"))
  SetProperty _ _ _ _ := ((), some (.TransportError "access denied"))
  Call _ _ _ := ((), none)
  Register _ _ _ _ := ((), some { id := 0 }, none)
  Disconnect _ _ := ()
  GetObjectManager _ := ((), some { id := 0 }, none)
  omRegister _ _ := ((), some { id := 1 }, none)
  omUnregister _ _ _ := ()
  send _ _ _ := .ok ()

/-- A remote object that has changed without any write by the time of the next
read: the bulk fetch delivers the value in the state and the remote value is
then the opposite one. -/
def driftBus : Bus Bool where
  GetProperties s _ _ := (!s, s, none)
  GetProperty s _ _ := (s, { value := .bool s }, none)
  SetProperty s _ _ _ := (s, some (.TransportError "read-only property"))
  Call s _ _ := (s, none)
  Register s _ _ _ := (s, some { id := 0 }, none)
  Disconnect s _ := s
  GetObjectManager s := (s, some { id := 0 }, none)
  omRegister s _ := (s, some { id := 1 }, none)
  omUnregister s _ _ := s
  send s _ _ := .ok s

/-- A bus whose channels all answer a send with the outcome `out`: `.blocked`
for channels nobody receives from, a panic for channels that have been closed. -/
def channelBus (out : GoResult Unit) : Bus Unit where
  GetProperties _ _ old := ((), old, none)
  GetProperty _ _ _ := ((), { value := .bool true }, none)
  SetProperty _ _ _ _ := ((), none)
  Call _ _ _ := ((), none)
  Register _ _ _ _ := ((), some { id := 0 }, none)
  Disconnect _ _ := ()
  GetObjectManager _ := ((), some { id := 0 }, none)
  omRegister _ _ := ((), some { id := 1 }, none)
  omUnregister _ _ _ := ()
  send _ _ _ := out

/-- The object path used in the examples. -/
def hci0 : ObjectPath := "/org/bluez/hci0"

/-- The proxy that `NewSimAccess1 hci0` builds when the fetch delivers `c`. -/
def proxy0 (c : Bool) : SimAccess1 :=
  { client :=
      { Config := { Name := "org.bluez", Iface := "org.bluez.SimAccess1", Path := hci0,
                    Bus := .SystemBus } }
    propertiesSignal := none
    objectManagerSignal := none
    objectManager := none
    Properties := some { lock := { held := false }, Connected := c }
    watchPropertiesChannel := none }

/-- A test remote with an open connection and `Connected` set to `v`. -/
def remote0 (v : GoValue) : Remote :=
  { connected := true, value := v, next := 7 }

/-- The world at program start over a bus state. -/
def World.start {σ : Type} (s : σ) : World σ :=
  { bus := s, trace := [] }

/-! ## Basic facts -/

@[simp] theorem GoResult.bind_ok {α β : Type} (v : α) (f : α → GoResult β) :
    (GoResult.ok v).bind f = f v := rfl

@[simp] theorem GoResult.bind_panic {α β : Type} (m : String) (f : α → GoResult β) :
    (GoResult.panic m : GoResult α).bind f = .panic m := rfl

@[simp] theorem GoResult.bind_blocked {α β : Type} (f : α → GoResult β) :
    (GoResult.blocked : GoResult α).bind f = .blocked := rfl

/-- The outcome of `GetProperties` on a proxy whose snapshot exists and whose
lock is free. -/
theorem GetProperties_eq {σ : Type} (B : Bus σ) (a : SimAccess1) (w : World σ)
    (p : SimAccess1Properties) (hp : a.Properties = some p) (hfree : p.lock.held = false) :
    a.GetProperties B w =
      .ok ((some { lock := { held := false },
                   Connected := (B.GetProperties w.bus a.client p.Connected).2.1 },
            (B.GetProperties w.bus a.client p.Connected).2.2),
           { a with
             Properties := some ⟨⟨false⟩, (B.GetProperties w.bus a.client p.Connected).2.1⟩ },
           { bus := (B.GetProperties w.bus a.client p.Connected).1,
             trace := w.trace ++ [.lock, .clientGetProperties, .unlock] }) := by
  simp [SimAccess1.GetProperties, hp, SimAccess1Properties.Lock, SimAccess1Properties.Unlock,
    hfree, World.emit, World.record]

/-! ## The snapshot: GetProperties, NewSimAccess1, GetConnected, SetProperty -/

/-- The outcome of `NewSimAccess1` when the initial fetch answers an error. -/
theorem NewSimAccess1_fails {σ : Type} (B : Bus σ) (objectPath : ObjectPath) (w : World σ)
    (e : Error)
    (he : (B.GetProperties w.bus
      (NewClient ⟨"org.bluez", SimAccess1Interface, objectPath, .SystemBus⟩) false).2.2 = some e) :
    NewSimAccess1 B objectPath w =
      .ok ((none, some e),
        { bus := (B.GetProperties w.bus
            (NewClient ⟨"org.bluez", SimAccess1Interface, objectPath, .SystemBus⟩) false).1,
          trace := w.trace ++ [.lock, .clientGetProperties, .unlock] }) := by
  unfold NewSimAccess1
  simp only []
  rw [GetProperties_eq B _ w ⟨⟨false⟩, false⟩ rfl rfl]
  simp only [GoResult.bind_ok]
  rw [he]

/-- The outcome of `NewSimAccess1` when the initial fetch answers no error. -/
theorem NewSimAccess1_succeeds {σ : Type} (B : Bus σ) (objectPath : ObjectPath) (w : World σ)
    (he : (B.GetProperties w.bus
      (NewClient ⟨"org.bluez", SimAccess1Interface, objectPath, .SystemBus⟩) false).2.2 = none) :
    NewSimAccess1 B objectPath w =
      .ok ((some
          { client := NewClient ⟨"org.bluez", SimAccess1Interface, objectPath, .SystemBus⟩
            propertiesSignal := none
            objectManagerSignal := none
            objectManager := none
            Properties := some ⟨⟨false⟩, (B.GetProperties w.bus
              (NewClient ⟨"org.bluez", SimAccess1Interface, objectPath, .SystemBus⟩) false).2.1⟩
            watchPropertiesChannel := none }, none),
        { bus := (B.GetProperties w.bus
            (NewClient ⟨"org.bluez", SimAccess1Interface, objectPath, .SystemBus⟩) false).1,
          trace := w.trace ++ [.lock, .clientGetProperties, .unlock] }) := by
  unfold NewSimAccess1
  simp only []
  rw [GetProperties_eq B _ w ⟨⟨false⟩, false⟩ rfl rfl]
  simp only [GoResult.bind_ok]
  rw [he]

/-- C10: on a proxy whose snapshot exists and whose lock is free, GetProperties
returns; it takes the write lock once, then fetches, then releases the lock
once, whatever the fetch answers; the lock is free on return; the result is
the proxy's snapshot (never nil) together with exactly the error of the fetch;
no other field of the proxy changes. -/
theorem GetProperties_releases_lock {σ : Type} (B : Bus σ) (a : SimAccess1) (w : World σ)
    (p : SimAccess1Properties) (hp : a.Properties = some p) (hfree : p.lock.held = false) :
    ∃ p1 a1 w1,
      a.GetProperties B w =
        .ok ((some p1, (B.GetProperties w.bus a.client p.Connected).2.2), a1, w1) ∧
      a1.Properties = some p1 ∧
      p1.lock.held = false ∧
      p1.Connected = (B.GetProperties w.bus a.client p.Connected).2.1 ∧
      w1.trace = w.trace ++ [.lock, .clientGetProperties, .unlock] ∧
      w1.bus = (B.GetProperties w.bus a.client p.Connected).1 ∧
      a1 = { a with Properties := some p1 } := by
  refine ⟨_, _, _, GetProperties_eq B a w p hp hfree, rfl, rfl, rfl, rfl, rfl, rfl⟩

/-- Witness for C10: a refresh on a fresh proxy over the reconnecting test bus. -/
theorem GetProperties_releases_lock_witness :
    (proxy0 false).Properties = some ⟨⟨false⟩, false⟩ ∧
    ∃ p1 a1 w1,
      (proxy0 false).GetProperties lazyBus (World.start (remote0 (.bool true))) =
        .ok ((some p1,
              (lazyBus.GetProperties (World.start (remote0 (.bool true))).bus
                (proxy0 false).client false).2.2), a1, w1) ∧
      a1.Properties = some p1 ∧
      p1.lock.held = false ∧
      p1.Connected =
        (lazyBus.GetProperties (World.start (remote0 (.bool true))).bus
          (proxy0 false).client false).2.1 ∧
      w1.trace = (World.start (remote0 (.bool true))).trace ++
        [.lock, .clientGetProperties, .unlock] ∧
      w1.bus =
        (lazyBus.GetProperties (World.start (remote0 (.bool true))).bus
          (proxy0 false).client false).1 ∧
      a1 = { proxy0 false with Properties := some p1 } :=
  ⟨rfl, GetProperties_releases_lock lazyBus (proxy0 false)
    (World.start (remote0 (.bool true))) ⟨⟨false⟩, false⟩ rfl rfl⟩

/-- C3: NewSimAccess1 returns for every object path and every bus.  When the
initial fetch answers error e the result is (nil, e).  When it answers no error
the result is a proxy and a nil error; the proxy's snapshot is not nil, its lock
is free and it holds the fetched value; Interface() is "org.bluez.SimAccess1"
and Path() is the given path; both signal handles, the object manager and the
watch channel are nil, and the only effects were lock, fetch, unlock. -/
theorem NewSimAccess1_atomic {σ : Type} (B : Bus σ) (objectPath : ObjectPath) (w : World σ) :
    (∀ e, (B.GetProperties w.bus
          (NewClient ⟨"org.bluez", SimAccess1Interface, objectPath, .SystemBus⟩) false).2.2
        = some e →
      ∃ w1, NewSimAccess1 B objectPath w = .ok ((none, some e), w1)) ∧
    ((B.GetProperties w.bus
          (NewClient ⟨"org.bluez", SimAccess1Interface, objectPath, .SystemBus⟩) false).2.2
        = none →
      ∃ a w1, NewSimAccess1 B objectPath w = .ok ((some a, none), w1) ∧
        a.Properties = some ⟨⟨false⟩, (B.GetProperties w.bus
          (NewClient ⟨"org.bluez", SimAccess1Interface, objectPath, .SystemBus⟩) false).2.1⟩ ∧
        a.Interface = "org.bluez.SimAccess1" ∧
        a.Path = objectPath ∧
        a.propertiesSignal = none ∧
        a.objectManagerSignal = none ∧
        a.objectManager = none ∧
        a.watchPropertiesChannel = none ∧
        w1.trace = w.trace ++ [.lock, .clientGetProperties, .unlock]) := by
  constructor
  · intro e he
    refine ⟨_, NewSimAccess1_fails B objectPath w e he⟩
  · intro he
    exact ⟨_, _, NewSimAccess1_succeeds B objectPath w he, rfl, rfl, rfl, rfl, rfl, rfl, rfl, rfl⟩

/-- Witness for C3: construction over the reconnecting test bus succeeds, and
over a disconnected enforcing bus it fails with the bus error and no proxy. -/
theorem NewSimAccess1_atomic_witness :
    NewSimAccess1 lazyBus hci0 (World.start (remote0 (.bool true))) =
      .ok ((some (proxy0 true), none),
           ⟨remote0 (.bool true), [.lock, .clientGetProperties, .unlock]⟩) ∧
    (∃ w1, NewSimAccess1 strictBus hci0 (World.start ⟨false, .bool true, 7⟩) =
      .ok ((none, some .ClosedError), w1)) :=
  ⟨rfl, (NewSimAccess1_atomic strictBus hci0 (World.start ⟨false, .bool true, 7⟩)).1
    .ClosedError rfl⟩

/-- C2 (as the code has it): GetConnected performs one remote read of
"Connected".  When the read fails with err it returns (false, err); when the
read yields a boolean b it returns (b, nil); when the read succeeds with a
value that is not a boolean the unchecked type assertion panics: the call does
not return, and so returns no TypeMismatchError. -/
theorem GetConnected_cases {σ : Type} (B : Bus σ) (a : SimAccess1) (w : World σ) :
    (∀ err, (B.GetProperty w.bus a.client "Connected").2.2 = some err →
      a.GetConnected B w =
        .ok ((false, some err), a,
             w.record (B.GetProperty w.bus a.client "Connected").1
               (.clientGetProperty "Connected"))) ∧
    (∀ b, (B.GetProperty w.bus a.client "Connected").2.2 = none →
      (B.GetProperty w.bus a.client "Connected").2.1.value = .bool b →
      a.GetConnected B w =
        .ok ((b, none), a,
             w.record (B.GetProperty w.bus a.client "Connected").1
               (.clientGetProperty "Connected"))) ∧
    ((B.GetProperty w.bus a.client "Connected").2.2 = none →
      (∀ b, (B.GetProperty w.bus a.client "Connected").2.1.value ≠ .bool b) →
      a.GetConnected B w = .panic "interface conversion: value is not bool") := by
  refine ⟨?_, ?_, ?_⟩
  · intro err h
    simp [SimAccess1.GetConnected, SimAccess1.GetProperty, h]
  · intro b h hb
    simp [SimAccess1.GetConnected, SimAccess1.GetProperty, h, hb]
  · intro h hb
    unfold SimAccess1.GetConnected SimAccess1.GetProperty
    simp only [h]

/-- Witness for C2: a boolean read, a failed read and a string read. -/
theorem GetConnected_cases_witness :
    (proxy0 false).GetConnected lazyBus (World.start (remote0 (.bool true))) =
      .ok ((true, none), proxy0 false,
           ⟨remote0 (.bool true), [.clientGetProperty "Connected"]⟩) ∧
    (proxy0 true).GetConnected bulkOnlyBus (World.start ()) =
      .ok ((false, some (.TransportError "access denied")), proxy0 true,
           ⟨(), [.clientGetProperty "Connected"]⟩) ∧
    (proxy0 false).GetConnected lazyBus (World.start (remote0 (.str "yes"))) =
      .panic "interface conversion: value is not bool" :=
  ⟨(GetConnected_cases lazyBus (proxy0 false) (World.start (remote0 (.bool true)))).2.1
      true rfl rfl,
   (GetConnected_cases bulkOnlyBus (proxy0 true) (World.start ())).1
      (.TransportError "access denied") rfl,
   (GetConnected_cases lazyBus (proxy0 false) (World.start (remote0 (.str "yes")))).2.2
      rfl (by intro b h; cases h)⟩

/-- Counterexample to C2 as stated: the remote read of "Connected" succeeds
with the string "yes"; GetConnected panics and returns nothing, in particular
no TypeMismatchError. -/
theorem GetConnected_panics_on_string :
    (lazyBus.GetProperty (remote0 (.str "yes")) (proxy0 false).client "Connected").2 =
      (⟨.str "yes"⟩, none) ∧
    (proxy0 false).GetConnected lazyBus (World.start (remote0 (.str "yes"))) =
      .panic "interface conversion: value is not bool" ∧
    ¬ ∃ b a1 w1, (proxy0 false).GetConnected lazyBus (World.start (remote0 (.str "yes"))) =
      .ok ((b, some .TypeMismatchError), a1, w1) := by
  refine ⟨rfl, rfl, ?_⟩
  rintro ⟨b, a1, w1, h⟩
  have h2 : (proxy0 false).GetConnected lazyBus (World.start (remote0 (.str "yes"))) =
      .panic "interface conversion: value is not bool" := rfl
  rw [h2] at h
  cases h

/-- C6: SetProperty leaves the proxy as it was (snapshot, both signal handles,
object manager, watch channel), for every name and value and whatever the
remote write answers; its result is exactly the result of the client's
SetProperty, and its only effect is that one call on the client. -/
theorem SetProperty_frame {σ : Type} (B : Bus σ) (a : SimAccess1) (name : String)
    (value : GoValue) (w : World σ) :
    (a.SetProperty B name value w).2.1 = a ∧
    (a.SetProperty B name value w).2.1.Properties = a.Properties ∧
    (a.SetProperty B name value w).2.1.propertiesSignal = a.propertiesSignal ∧
    (a.SetProperty B name value w).2.1.objectManagerSignal = a.objectManagerSignal ∧
    (a.SetProperty B name value w).2.1.watchPropertiesChannel = a.watchPropertiesChannel ∧
    (a.SetProperty B name value w).1 = (B.SetProperty w.bus a.client name value).2 ∧
    (a.SetProperty B name value w).2.2.bus = (B.SetProperty w.bus a.client name value).1 ∧
    (a.SetProperty B name value w).2.2.trace = w.trace ++ [.clientSetProperty name value] :=
  ⟨rfl, rfl, rfl, rfl, rfl, rfl, rfl, rfl⟩

/-! ## Subscriptions -/

/-- What a successful `GetPropertiesSignal` leaves in the proxy: the handle it
returned. -/
theorem GetPropertiesSignal_handle {σ : Type} (B : Bus σ) (a : SimAccess1) (w : World σ)
    (h : Chan) (a1 : SimAccess1) (w1 : World σ)
    (hfirst : a.GetPropertiesSignal B w = ((some h, none), a1, w1)) :
    a1.propertiesSignal = some h := by
  unfold SimAccess1.GetPropertiesSignal at hfirst
  cases hs : a.propertiesSignal with
  | some c =>
    simp only [hs, Prod.mk.injEq] at hfirst
    rw [← hfirst.2.1, hs, hfirst.1.1]
  | none =>
    simp only [hs] at hfirst
    cases he : (B.Register w.bus a.client a.client.Config.Path PropertiesInterface).2.2 with
    | some e => simp [he] at hfirst
    | none =>
      simp only [he, Prod.mk.injEq] at hfirst
      rw [← hfirst.2.1]
      exact hfirst.1.1

/-- With a handle cached, `GetPropertiesSignal` returns it and does nothing. -/
theorem GetPropertiesSignal_cached {σ : Type} (B : Bus σ) (a : SimAccess1) (w : World σ)
    (h : Chan) (hs : a.propertiesSignal = some h) :
    a.GetPropertiesSignal B w = ((some h, none), a, w) := by
  simp [SimAccess1.GetPropertiesSignal, hs]

/-- With no property-change handle, `unregisterPropertiesSignal` does nothing. -/
theorem unregisterPropertiesSignal_nil {σ : Type} (B : Bus σ) (a : SimAccess1) (w : World σ)
    (hs : a.propertiesSignal = none) : a.unregisterPropertiesSignal B w = .ok (a, w) := by
  simp [SimAccess1.unregisterPropertiesSignal, hs]

/-- With handle `ch`, `unregisterPropertiesSignal` sends first and clears the
handle after the send. -/
theorem unregisterPropertiesSignal_set {σ : Type} (B : Bus σ) (a : SimAccess1) (w : World σ)
    (ch : Chan) (hs : a.propertiesSignal = some ch) :
    a.unregisterPropertiesSignal B w =
      (B.send w.bus ch none).bind fun s =>
        .ok ({ a with propertiesSignal := none },
             { bus := s, trace := w.trace ++ [.send .propertiesSignal ch none] }) := by
  simp [SimAccess1.unregisterPropertiesSignal, hs, World.record]

/-- The ways `unregisterPropertiesSignal` returns. -/
theorem unregisterPropertiesSignal_ok {σ : Type} (B : Bus σ) (a : SimAccess1) (w : World σ)
    (st1 : SimAccess1 × World σ) (h : a.unregisterPropertiesSignal B w = .ok st1) :
    (a.propertiesSignal = none ∧ st1 = (a, w)) ∨
    ∃ ch s, a.propertiesSignal = some ch ∧ B.send w.bus ch none = .ok s ∧
      st1 = ({ a with propertiesSignal := none },
             { bus := s, trace := w.trace ++ [.send .propertiesSignal ch none] }) := by
  cases hs : a.propertiesSignal with
  | none =>
    rw [unregisterPropertiesSignal_nil B a w hs] at h
    exact Or.inl ⟨rfl, (GoResult.ok.inj h).symm⟩
  | some ch =>
    rw [unregisterPropertiesSignal_set B a w ch hs] at h
    cases hsend : B.send w.bus ch none with
    | ok s =>
      rw [hsend] at h
      exact Or.inr ⟨ch, s, rfl, hsend, (GoResult.ok.inj h).symm⟩
    | panic m => rw [hsend] at h; cases h
    | blocked => rw [hsend] at h; cases h

/-- The ways `Close` returns: `unregisterPropertiesSignal` returned, then the
client was disconnected. -/
theorem Close_ok {σ : Type} (B : Bus σ) (a : SimAccess1) (w : World σ)
    (st1 : SimAccess1 × World σ) (h : a.Close B w = .ok st1) :
    ∃ st0, a.unregisterPropertiesSignal B w = .ok st0 ∧
      st1 = (st0.1, { bus := B.Disconnect st0.2.bus st0.1.client,
                      trace := st0.2.trace ++ [.clientDisconnect] }) := by
  unfold SimAccess1.Close at h
  cases hu : a.unregisterPropertiesSignal B w with
  | ok st0 =>
    rw [hu] at h
    exact ⟨st0, rfl, (GoResult.ok.inj h).symm⟩
  | panic m => rw [hu] at h; cases h
  | blocked => rw [hu] at h; cases h

/-- With no object-manager handle, the cancel closure does nothing. -/
theorem cancel_unsubscribed {σ : Type} (B : Bus σ) (a : SimAccess1) (w : World σ)
    (hs : a.objectManagerSignal = none) : a.cancel B w = .ok (a, w) := by
  simp [SimAccess1.cancel, hs]

/-- With handle `ch`, the cancel closure sends first, then unregisters the
channel and clears the handle. -/
theorem cancel_subscribed {σ : Type} (B : Bus σ) (a : SimAccess1) (w : World σ)
    (ch : Chan) (hs : a.objectManagerSignal = some ch) :
    a.cancel B w =
      (B.send w.bus ch none).bind fun s =>
        .ok ({ a with objectManagerSignal := none },
             { bus := B.omUnregister s a.objectManager ch,
               trace := w.trace ++ [.send .objectManagerSignal ch none, .omUnregister ch] }) := by
  simp [SimAccess1.cancel, hs, World.record]

/-- The ways the cancel closure returns. -/
theorem cancel_ok {σ : Type} (B : Bus σ) (a : SimAccess1) (w : World σ)
    (st1 : SimAccess1 × World σ) (h : a.cancel B w = .ok st1) :
    (a.objectManagerSignal = none ∧ st1 = (a, w)) ∨
    ∃ ch s, a.objectManagerSignal = some ch ∧ B.send w.bus ch none = .ok s ∧
      st1 = ({ a with objectManagerSignal := none },
             { bus := B.omUnregister s a.objectManager ch,
               trace := w.trace ++
                 [.send .objectManagerSignal ch none, .omUnregister ch] }) := by
  cases hs : a.objectManagerSignal with
  | none =>
    rw [cancel_unsubscribed B a w hs] at h
    exact Or.inl ⟨rfl, (GoResult.ok.inj h).symm⟩
  | some ch =>
    rw [cancel_subscribed B a w ch hs] at h
    cases hsend : B.send w.bus ch none with
    | ok s =>
      rw [hsend] at h
      exact Or.inr ⟨ch, s, rfl, hsend, (GoResult.ok.inj h).symm⟩
    | panic m => rw [hsend] at h; cases h
    | blocked => rw [hsend] at h; cases h

/-- After an operation the state is what its normal return leaves, or else it
is as it was. -/
theorem Op.run_cases {σ : Type} (B : Bus σ) (op : Op) (st : SimAccess1 × World σ) :
    op.call B st = .ok (op.run B st) ∨ op.run B st = st := by
  unfold Op.run
  cases h : op.call B st with
  | ok st1 => exact Or.inl rfl
  | panic m => exact Or.inr rfl
  | blocked => exact Or.inr rfl

/-- Only `unregisterPropertiesSignal` and `Close` touch a cached
property-change handle. -/
theorem Op.call_keeps_propertiesSignal {σ : Type} (B : Bus σ) (op : Op)
    (st st1 : SimAccess1 × World σ) (hc : op.call B st = .ok st1)
    (h : Chan) (hs : st.1.propertiesSignal = some h)
    (h1 : op ≠ .unregisterPropertiesSignal) (h2 : op ≠ .Close) :
    st1.1.propertiesSignal = some h := by
  cases op with
  | unregisterPropertiesSignal => exact absurd rfl h1
  | Close => exact absurd rfl h2
  | GetPropertiesSignal =>
    simp only [Op.call, GetPropertiesSignal_cached B st.1 st.2 h hs, GoResult.ok.injEq] at hc
    rw [← hc]
    exact hs
  | GetObjectManagerSignal =>
    simp only [Op.call, GoResult.ok.injEq] at hc
    rw [← hc]
    simp only [SimAccess1.GetObjectManagerSignal]
    split
    · exact hs
    · split
      · split
        · exact hs
        · split <;> exact hs
      · split <;> exact hs
  | cancel =>
    rcases cancel_ok B st.1 st.2 st1 hc with ⟨_, rfl⟩ | ⟨ch, s, _, _, rfl⟩
    · exact hs
    · exact hs

/-- A run without `unregisterPropertiesSignal` and `Close` keeps the cached
property-change handle. -/
theorem runOps_keeps_propertiesSignal {σ : Type} (B : Bus σ) (ops : List Op)
    (st : SimAccess1 × World σ) (h : Chan) (hs : st.1.propertiesSignal = some h)
    (hops : ∀ op ∈ ops, op ≠ .unregisterPropertiesSignal ∧ op ≠ .Close) :
    (runOps B ops st).1.propertiesSignal = some h := by
  induction ops generalizing st with
  | nil => exact hs
  | cons op rest ih =>
    have hop := hops op (List.mem_cons_self op rest)
    refine ih (op.run B st) ?_ (fun o ho => hops o (List.mem_cons_of_mem op ho))
    rcases Op.run_cases B op st with hc | hc
    · exact Op.call_keeps_propertiesSignal B op st _ hc h hs hop.1 hop.2
    · rw [hc]; exact hs

/-- Only `GetObjectManagerSignal` sets the object-manager handle. -/
theorem Op.call_keeps_unsubscribed {σ : Type} (B : Bus σ) (op : Op)
    (st st1 : SimAccess1 × World σ) (hc : op.call B st = .ok st1)
    (hs : st.1.objectManagerSignal = none) (h1 : op ≠ .GetObjectManagerSignal) :
    st1.1.objectManagerSignal = none := by
  cases op with
  | GetObjectManagerSignal => exact absurd rfl h1
  | Close =>
    obtain ⟨st0, hu, rfl⟩ := Close_ok B st.1 st.2 st1 hc
    rcases unregisterPropertiesSignal_ok B st.1 st.2 st0 hu with ⟨_, rfl⟩ | ⟨ch, s, _, _, rfl⟩
    · exact hs
    · exact hs
  | unregisterPropertiesSignal =>
    rcases unregisterPropertiesSignal_ok B st.1 st.2 st1 hc with ⟨_, rfl⟩ | ⟨ch, s, _, _, rfl⟩
    · exact hs
    · exact hs
  | GetPropertiesSignal =>
    simp only [Op.call, GoResult.ok.injEq] at hc
    rw [← hc]
    simp only [SimAccess1.GetPropertiesSignal]
    split
    · split <;> exact hs
    · exact hs
  | cancel =>
    simp only [Op.call, cancel_unsubscribed B st.1 st.2 hs, GoResult.ok.injEq] at hc
    rw [← hc]
    exact hs

/-- A run without `GetObjectManagerSignal` leaves the object-manager handle nil. -/
theorem runOps_keeps_unsubscribed {σ : Type} (B : Bus σ) (ops : List Op)
    (st : SimAccess1 × World σ) (hs : st.1.objectManagerSignal = none)
    (hops : ∀ op ∈ ops, op ≠ .GetObjectManagerSignal) :
    (runOps B ops st).1.objectManagerSignal = none := by
  induction ops generalizing st with
  | nil => exact hs
  | cons op rest ih =>
    refine ih (op.run B st) ?_ (fun o ho => hops o (List.mem_cons_of_mem op ho))
    rcases Op.run_cases B op st with hc | hc
    · exact Op.call_keeps_unsubscribed B op st _ hc hs (hops op (List.mem_cons_self op rest))
    · rw [hc]; exact hs

/-- What a successful `GetObjectManagerSignal` returns and leaves: the cached
handle is the returned channel and the returned function is the cancel closure. -/
theorem GetObjectManagerSignal_handle {σ : Type} (B : Bus σ) (a : SimAccess1) (w : World σ)
    (ch : Chan) (f : CancelFunc σ) (a1 : SimAccess1) (w1 : World σ)
    (hsub : a.GetObjectManagerSignal B w = ((some ch, some f, none), a1, w1)) :
    a1.objectManagerSignal = some ch ∧ f = SimAccess1.cancel B := by
  unfold SimAccess1.GetObjectManagerSignal at hsub
  split at hsub
  · next c hc =>
    simp only [Prod.mk.injEq, Option.some.injEq] at hsub
    refine ⟨?_, hsub.1.2.1.symm⟩
    rw [← hsub.2.1]
    exact hsub.1.1
  · split at hsub
    · dsimp only at hsub
      split at hsub
      · simp at hsub
      · split at hsub
        · simp at hsub
        · simp only [Prod.mk.injEq, Option.some.injEq] at hsub
          refine ⟨?_, hsub.1.2.1.symm⟩
          rw [← hsub.2.1]
          exact hsub.1.1
    · dsimp only at hsub
      split at hsub
      · simp at hsub
      · simp only [Prod.mk.injEq, Option.some.injEq] at hsub
        refine ⟨?_, hsub.1.2.1.symm⟩
        rw [← hsub.2.1]
        exact hsub.1.1

/-- C4: GetPropertiesSignal is idempotent.  When a call succeeds and returns
handle h, then after any operations other than unregisterPropertiesSignal and
Close, a further call returns the same handle h with a nil error and leaves the
proxy and the world as they were: no second Register on the client, no event. -/
theorem GetPropertiesSignal_idempotent {σ : Type} (B : Bus σ) (a : SimAccess1) (w : World σ)
    (h : Chan) (a1 : SimAccess1) (w1 : World σ)
    (hfirst : a.GetPropertiesSignal B w = ((some h, none), a1, w1))
    (mid : List Op)
    (hmid : ∀ op ∈ mid, op ≠ .unregisterPropertiesSignal ∧ op ≠ .Close) :
    (runOps B mid (a1, w1)).1.GetPropertiesSignal B (runOps B mid (a1, w1)).2 =
        ((some h, none), runOps B mid (a1, w1)) ∧
    ((runOps B mid (a1, w1)).1.GetPropertiesSignal B (runOps B mid (a1, w1)).2).2.2.trace =
        (runOps B mid (a1, w1)).2.trace :=
  have hs := runOps_keeps_propertiesSignal B mid (a1, w1) h
    (GetPropertiesSignal_handle B a w h a1 w1 hfirst) hmid
  ⟨GetPropertiesSignal_cached B _ _ h hs, by rw [GetPropertiesSignal_cached B _ _ h hs]⟩

/-- Witness for C4: subscribe on a fresh proxy, subscribe to the object manager
in between, subscribe again: one Register on the client, the same handle. -/
theorem GetPropertiesSignal_idempotent_witness :
    (proxy0 true).GetPropertiesSignal lazyBus (World.start (remote0 (.bool true))) =
      ((some ⟨7⟩, none), { proxy0 true with propertiesSignal := some ⟨7⟩ },
        ⟨⟨true, .bool true, 8⟩, [.clientRegister hci0 PropertiesInterface (some ⟨7⟩) none]⟩) ∧
    (runOps lazyBus [.GetObjectManagerSignal]
        ({ proxy0 true with propertiesSignal := some ⟨7⟩ },
         ⟨⟨true, .bool true, 8⟩,
          [.clientRegister hci0 PropertiesInterface (some ⟨7⟩) none]⟩)).1.GetPropertiesSignal
      lazyBus
      (runOps lazyBus [.GetObjectManagerSignal]
        ({ proxy0 true with propertiesSignal := some ⟨7⟩ },
         ⟨⟨true, .bool true, 8⟩,
          [.clientRegister hci0 PropertiesInterface (some ⟨7⟩) none]⟩)).2 =
      ((some ⟨7⟩, none),
       runOps lazyBus [.GetObjectManagerSignal]
        ({ proxy0 true with propertiesSignal := some ⟨7⟩ },
         ⟨⟨true, .bool true, 8⟩,
          [.clientRegister hci0 PropertiesInterface (some ⟨7⟩) none]⟩)) :=
  ⟨rfl, (GetPropertiesSignal_idempotent lazyBus (proxy0 true)
    (World.start (remote0 (.bool true))) ⟨7⟩ _ _ rfl [.GetObjectManagerSignal]
    (by intro op hop; simp at hop; subst hop; exact ⟨by decide, by decide⟩)).1⟩

/-- C7 (as the code has it): the cancel function returned by a successful
GetObjectManagerSignal sends the nil sentinel first.  When that send completes,
the first call has sent one nil sentinel on the returned channel, then
unregistered that channel from the object manager once, and cleared the proxy's
object-manager handle, changing nothing else in the proxy.  When the send
panics or blocks, so does the call.  Once the first call has returned, and
after any further operations other than GetObjectManagerSignal, a call of the
cancel function returns and changes neither the proxy nor the world: no send,
no Unregister. -/
theorem cancel_idempotent {σ : Type} (B : Bus σ) (a : SimAccess1) (w : World σ)
    (ch : Chan) (f : CancelFunc σ) (a1 : SimAccess1) (w1 : World σ)
    (hsub : a.GetObjectManagerSignal B w = ((some ch, some f, none), a1, w1)) :
    (∀ s, B.send w1.bus ch none = .ok s →
      f a1 w1 =
        .ok ({ a1 with objectManagerSignal := none },
             { bus := B.omUnregister s a1.objectManager ch,
               trace := w1.trace ++ [.send .objectManagerSignal ch none, .omUnregister ch] })) ∧
    (∀ m, B.send w1.bus ch none = .panic m → f a1 w1 = .panic m) ∧
    (B.send w1.bus ch none = .blocked → f a1 w1 = .blocked) ∧
    ∀ st, f a1 w1 = .ok st →
      ∀ later : List Op, (∀ op ∈ later, op ≠ .GetObjectManagerSignal) →
        f (runOps B later st).1 (runOps B later st).2 = .ok (runOps B later st) := by
  obtain ⟨hs, hf⟩ := GetObjectManagerSignal_handle B a w ch f a1 w1 hsub
  subst hf
  have hc := cancel_subscribed B a1 w1 ch hs
  refine ⟨?_, ?_, ?_, ?_⟩
  · intro s hsend
    rw [hc, hsend]
    rfl
  · intro m hsend
    rw [hc, hsend]
    rfl
  · intro hsend
    rw [hc, hsend]
    rfl
  · intro st hst later hlater
    apply cancel_unsubscribed
    apply runOps_keeps_unsubscribed B later _ _ hlater
    rcases cancel_ok B a1 w1 st hst with ⟨hn, _⟩ | ⟨c, s, _, _, rfl⟩
    · rw [hs] at hn; cases hn
    · rfl

/-- Witness for C7: subscribe to the object manager on a fresh proxy over a bus
whose channels are drained, then cancel. -/
theorem cancel_idempotent_witness :
    (proxy0 true).GetObjectManagerSignal lazyBus (World.start (remote0 (.bool true))) =
      ((some ⟨7⟩, some (SimAccess1.cancel lazyBus), none),
       { proxy0 true with objectManager := some ⟨0⟩, objectManagerSignal := some ⟨7⟩ },
       ⟨⟨true, .bool true, 8⟩, [.getObjectManager, .omRegister (some ⟨7⟩) none]⟩) ∧
    SimAccess1.cancel lazyBus
        { proxy0 true with objectManager := some ⟨0⟩, objectManagerSignal := some ⟨7⟩ }
        ⟨⟨true, .bool true, 8⟩, [.getObjectManager, .omRegister (some ⟨7⟩) none]⟩ =
      .ok ({ proxy0 true with objectManager := some ⟨0⟩ },
       ⟨⟨true, .bool true, 8⟩,
        [.getObjectManager, .omRegister (some ⟨7⟩) none,
         .send .objectManagerSignal ⟨7⟩ none, .omUnregister ⟨7⟩]⟩) :=
  ⟨rfl, (cancel_idempotent lazyBus (proxy0 true) (World.start (remote0 (.bool true)))
    ⟨7⟩ (SimAccess1.cancel lazyBus) _ _ rfl).1 ⟨true, .bool true, 8⟩ rfl⟩

/-- Counterexample to C7 as stated: GetObjectManagerSignal succeeds and returns
channel 1 and the cancel function; the channel has been closed, and the first
call of the cancel function panics in its send: nothing is sent, the channel is
not unregistered.  With a channel nobody receives from, the first call blocks. -/
theorem cancel_panics_on_closed_channel :
    (proxy0 true).GetObjectManagerSignal (channelBus (.panic "send on closed channel"))
        (World.start ()) =
      ((some ⟨1⟩, some (SimAccess1.cancel (channelBus (.panic "send on closed channel"))), none),
       { proxy0 true with objectManager := some ⟨0⟩, objectManagerSignal := some ⟨1⟩ },
       ⟨(), [.getObjectManager, .omRegister (some ⟨1⟩) none]⟩) ∧
    SimAccess1.cancel (channelBus (.panic "send on closed channel"))
        { proxy0 true with objectManager := some ⟨0⟩, objectManagerSignal := some ⟨1⟩ }
        ⟨(), [.getObjectManager, .omRegister (some ⟨1⟩) none]⟩ =
      .panic "send on closed channel" ∧
    SimAccess1.cancel (channelBus .blocked)
        { proxy0 true with objectManager := some ⟨0⟩, objectManagerSignal := some ⟨1⟩ }
        ⟨(), [.getObjectManager, .omRegister (some ⟨1⟩) none]⟩ =
      .blocked :=
  ⟨rfl, rfl, rfl⟩

/-- C8 (as the code has it): with no property-change handle,
unregisterPropertiesSignal returns and changes neither the proxy nor the world
(nothing is sent).  With handle ch it sends the nil sentinel on ch first: when
that send completes, exactly one nil sentinel has been sent on ch, the handle is
nil and nothing else in the proxy has changed; when the send panics or blocks,
so does the call. -/
theorem unregisterPropertiesSignal_spec {σ : Type} (B : Bus σ) (a : SimAccess1)
    (w : World σ) :
    (a.propertiesSignal = none → a.unregisterPropertiesSignal B w = .ok (a, w)) ∧
    (∀ ch, a.propertiesSignal = some ch →
      (∀ s, B.send w.bus ch none = .ok s →
        a.unregisterPropertiesSignal B w =
          .ok ({ a with propertiesSignal := none },
               { bus := s, trace := w.trace ++ [.send .propertiesSignal ch none] })) ∧
      (∀ m, B.send w.bus ch none = .panic m →
        a.unregisterPropertiesSignal B w = .panic m) ∧
      (B.send w.bus ch none = .blocked → a.unregisterPropertiesSignal B w = .blocked)) := by
  refine ⟨unregisterPropertiesSignal_nil B a w, ?_⟩
  intro ch hs
  have hc := unregisterPropertiesSignal_set B a w ch hs
  refine ⟨?_, ?_, ?_⟩
  · intro s hsend
    rw [hc, hsend]
    rfl
  · intro m hsend
    rw [hc, hsend]
    rfl
  · intro hsend
    rw [hc, hsend]
    rfl

/-- Witness for C8: a proxy without a subscription, and one subscribed on
channel 7 whose channel is drained. -/
theorem unregisterPropertiesSignal_spec_witness :
    (proxy0 true).unregisterPropertiesSignal lazyBus (World.start (remote0 (.bool true))) =
      .ok (proxy0 true, World.start (remote0 (.bool true))) ∧
    SimAccess1.unregisterPropertiesSignal lazyBus
        { proxy0 true with propertiesSignal := some ⟨7⟩ }
        (World.start (remote0 (.bool true))) =
      .ok (proxy0 true, ⟨remote0 (.bool true), [.send .propertiesSignal ⟨7⟩ none]⟩) :=
  ⟨(unregisterPropertiesSignal_spec lazyBus (proxy0 true)
      (World.start (remote0 (.bool true)))).1 rfl,
   ((unregisterPropertiesSignal_spec lazyBus { proxy0 true with propertiesSignal := some ⟨7⟩ }
     (World.start (remote0 (.bool true)))).2 ⟨7⟩ rfl).1 (remote0 (.bool true)) rfl⟩

/-- Counterexample to C8 as stated: a proxy subscribes and gets channel 0.
Nobody receives from the channel: unregisterPropertiesSignal blocks.  The
channel has been closed: unregisterPropertiesSignal panics.  In neither case
is a sentinel sent or the handle cleared. -/
theorem unregisterPropertiesSignal_blocks_or_panics :
    (proxy0 true).GetPropertiesSignal (channelBus .blocked) (World.start ()) =
      ((some ⟨0⟩, none), { proxy0 true with propertiesSignal := some ⟨0⟩ },
       ⟨(), [.clientRegister hci0 PropertiesInterface (some ⟨0⟩) none]⟩) ∧
    SimAccess1.unregisterPropertiesSignal (channelBus .blocked)
        { proxy0 true with propertiesSignal := some ⟨0⟩ }
        ⟨(), [.clientRegister hci0 PropertiesInterface (some ⟨0⟩) none]⟩ = .blocked ∧
    SimAccess1.unregisterPropertiesSignal (channelBus (.panic "send on closed channel"))
        { proxy0 true with propertiesSignal := some ⟨0⟩ }
        ⟨(), [.clientRegister hci0 PropertiesInterface (some ⟨0⟩) none]⟩ =
      .panic "send on closed channel" :=
  ⟨rfl, rfl, rfl⟩

/-! ## Close, and reads after a refresh -/

/-- C5 (as the code has it): GetConnected does not answer from the snapshot, it
reads "Connected" from the remote object again.  When GetProperties succeeds on
a proxy whose lock is free, the snapshot holds the boolean that the fetch
delivered, and a following GetConnected returns (b, nil) when the remote read
yields a boolean b and (false, err) when the read fails with err, whatever the
snapshot holds.  So it returns without error the boolean stored in the
snapshot exactly when the read succeeds with the boolean that the fetch
delivered. -/
theorem GetConnected_after_GetProperties {σ : Type} (B : Bus σ) (a : SimAccess1) (w : World σ)
    (p : SimAccess1Properties) (hp : a.Properties = some p) (hfree : p.lock.held = false)
    (hfetch : (B.GetProperties w.bus a.client p.Connected).2.2 = none) :
    ∃ p1 a1 w1,
      a.GetProperties B w = .ok ((some p1, none), a1, w1) ∧
      a1.Properties = some p1 ∧
      p1.Connected = (B.GetProperties w.bus a.client p.Connected).2.1 ∧
      w1.trace = w.trace ++ [.lock, .clientGetProperties, .unlock] ∧
      (∀ b, (B.GetProperty w1.bus a1.client "Connected").2 = (⟨.bool b⟩, none) →
        a1.GetConnected B w1 =
          .ok ((b, none), a1,
               { bus := (B.GetProperty w1.bus a1.client "Connected").1,
                 trace := w1.trace ++ [.clientGetProperty "Connected"] })) ∧
      (∀ err, (B.GetProperty w1.bus a1.client "Connected").2.2 = some err →
        a1.GetConnected B w1 =
          .ok ((false, some err), a1,
               { bus := (B.GetProperty w1.bus a1.client "Connected").1,
                 trace := w1.trace ++ [.clientGetProperty "Connected"] })) ∧
      (∀ b, (B.GetProperty w1.bus a1.client "Connected").2 = (⟨.bool b⟩, none) →
        (a1.GetConnected B w1 =
            .ok ((p1.Connected, none), a1,
                 { bus := (B.GetProperty w1.bus a1.client "Connected").1,
                   trace := w1.trace ++ [.clientGetProperty "Connected"] }) ↔
          b = (B.GetProperties w.bus a.client p.Connected).2.1)) := by
  have h := GetProperties_eq B a w p hp hfree
  rw [hfetch] at h
  have hbool : ∀ (a1 : SimAccess1) (w1 : World σ) (b : Bool),
      (B.GetProperty w1.bus a1.client "Connected").2 = (⟨.bool b⟩, none) →
      a1.GetConnected B w1 =
        .ok ((b, none), a1,
             { bus := (B.GetProperty w1.bus a1.client "Connected").1,
               trace := w1.trace ++ [.clientGetProperty "Connected"] }) := by
    intro a1 w1 b hb
    simp only [SimAccess1.GetConnected, SimAccess1.GetProperty, World.record]
    rw [hb]
  refine ⟨_, _, _, h, rfl, rfl, rfl, fun b hb => hbool _ _ b hb, ?_, ?_⟩
  · intro err herr
    simp only [SimAccess1.GetConnected, SimAccess1.GetProperty, World.record]
    rw [herr]
  · intro b hb
    rw [hbool _ _ b hb]
    constructor
    · intro heq
      simp only [GoResult.ok.injEq, Prod.mk.injEq, and_true] at heq
      exact heq
    · intro heq
      rw [heq]

/-- Witness for C5: a refresh on a fresh proxy over the reconnecting test bus
with remote value true. -/
theorem GetConnected_after_GetProperties_witness :
    (proxy0 false).Properties = some ⟨⟨false⟩, false⟩ ∧
    (lazyBus.GetProperties (World.start (remote0 (.bool true))).bus (proxy0 false).client
      false).2.2 = none ∧
    ∃ p1 a1 w1,
      (proxy0 false).GetProperties lazyBus (World.start (remote0 (.bool true))) =
        .ok ((some p1, none), a1, w1) ∧
      a1.Properties = some p1 ∧
      p1.Connected =
        (lazyBus.GetProperties (World.start (remote0 (.bool true))).bus (proxy0 false).client
          false).2.1 ∧
      w1.trace = (World.start (remote0 (.bool true))).trace ++
        [.lock, .clientGetProperties, .unlock] ∧
      (∀ b, (lazyBus.GetProperty w1.bus a1.client "Connected").2 = (⟨.bool b⟩, none) →
        a1.GetConnected lazyBus w1 =
          .ok ((b, none), a1,
               { bus := (lazyBus.GetProperty w1.bus a1.client "Connected").1,
                 trace := w1.trace ++ [.clientGetProperty "Connected"] })) ∧
      (∀ err, (lazyBus.GetProperty w1.bus a1.client "Connected").2.2 = some err →
        a1.GetConnected lazyBus w1 =
          .ok ((false, some err), a1,
               { bus := (lazyBus.GetProperty w1.bus a1.client "Connected").1,
                 trace := w1.trace ++ [.clientGetProperty "Connected"] })) ∧
      (∀ b, (lazyBus.GetProperty w1.bus a1.client "Connected").2 = (⟨.bool b⟩, none) →
        (a1.GetConnected lazyBus w1 =
            .ok ((p1.Connected, none), a1,
                 { bus := (lazyBus.GetProperty w1.bus a1.client "Connected").1,
                   trace := w1.trace ++ [.clientGetProperty "Connected"] }) ↔
          b = (lazyBus.GetProperties (World.start (remote0 (.bool true))).bus
            (proxy0 false).client false).2.1)) :=
  ⟨rfl, rfl, GetConnected_after_GetProperties lazyBus (proxy0 false)
    (World.start (remote0 (.bool true))) ⟨⟨false⟩, false⟩ rfl rfl rfl⟩

/-- Counterexample to C5 as stated, twice.  Over a remote object whose state
never changes, GetProperties succeeds and caches Connected = true, and the
following GetConnected returns false with a transport error.  Over a remote
object whose value has changed by the time of the read, without any write,
GetProperties succeeds and caches Connected = true, and the following
GetConnected returns false with a nil error. -/
theorem GetConnected_differs_from_snapshot :
    ((proxy0 false).GetProperties bulkOnlyBus (World.start ()) =
        .ok ((some ⟨⟨false⟩, true⟩, none), proxy0 true,
             ⟨(), [.lock, .clientGetProperties, .unlock]⟩) ∧
      (proxy0 true).GetConnected bulkOnlyBus ⟨(), [.lock, .clientGetProperties, .unlock]⟩ =
        .ok ((false, some (.TransportError "access denied")), proxy0 true,
             ⟨(), [.lock, .clientGetProperties, .unlock, .clientGetProperty "Connected"]⟩)) ∧
    ((proxy0 false).GetProperties driftBus (World.start true) =
        .ok ((some ⟨⟨false⟩, true⟩, none), proxy0 true,
             ⟨false, [.lock, .clientGetProperties, .unlock]⟩) ∧
      (proxy0 true).GetConnected driftBus ⟨false, [.lock, .clientGetProperties, .unlock]⟩ =
        .ok ((false, none), proxy0 true,
             ⟨false, [.lock, .clientGetProperties, .unlock, .clientGetProperty "Connected"]⟩)) :=
  ⟨⟨rfl, rfl⟩, ⟨rfl, rfl⟩⟩

/-! ## At most one registration of each kind -/

/-- Every subscription operation that returns keeps the active registrations
equal to the cached handles. -/
theorem Op.call_balanced {σ : Type} (B : Bus σ) (op : Op) (st st1 : SimAccess1 × World σ)
    (hc : op.call B st = .ok st1) (h : Balanced st) : Balanced st1 := by
  obtain ⟨a, w⟩ := st
  obtain ⟨hp, ho⟩ := h
  simp only [activePropertiesRegistrations, activeObjectManagerRegistrations] at hp ho
  cases op with
  | GetPropertiesSignal =>
    simp only [Op.call, GoResult.ok.injEq] at hc
    rw [← hc]
    simp only [SimAccess1.GetPropertiesSignal]
    split
    · next hs =>
      split
      · next e he =>
        simp_all [Balanced, activePropertiesRegistrations, activeObjectManagerRegistrations,
          World.record]
      · next he =>
        cases hr : (B.Register w.bus a.client a.client.Config.Path PropertiesInterface).2.1 with
        | none =>
          simp_all [Balanced, activePropertiesRegistrations, activeObjectManagerRegistrations,
            World.record]
        | some c =>
          simp_all [Balanced, activePropertiesRegistrations, activeObjectManagerRegistrations,
            World.record]
          omega
    · exact ⟨hp, ho⟩
  | unregisterPropertiesSignal =>
    rcases unregisterPropertiesSignal_ok B a w st1 hc with ⟨_, rfl⟩ | ⟨ch, s, hs, _, rfl⟩
    · exact ⟨hp, ho⟩
    · simp_all [Balanced, activePropertiesRegistrations, activeObjectManagerRegistrations]
      omega
  | Close =>
    obtain ⟨st0, hu, rfl⟩ := Close_ok B a w st1 hc
    rcases unregisterPropertiesSignal_ok B a w st0 hu with ⟨_, rfl⟩ | ⟨ch, s, hs, _, rfl⟩
    · simp_all [Balanced, activePropertiesRegistrations, activeObjectManagerRegistrations]
    · simp_all [Balanced, activePropertiesRegistrations, activeObjectManagerRegistrations]
      omega
  | GetObjectManagerSignal =>
    simp only [Op.call, GoResult.ok.injEq] at hc
    rw [← hc]
    simp only [SimAccess1.GetObjectManagerSignal]
    split
    · exact ⟨hp, ho⟩
    · next hs =>
      split
      · split
        · simp_all [Balanced, activePropertiesRegistrations, activeObjectManagerRegistrations,
            World.record]
        · split
          · simp_all [Balanced, activePropertiesRegistrations,
              activeObjectManagerRegistrations, World.record]
          · next he =>
            cases hr : (B.omRegister (B.GetObjectManager w.bus).1
              (B.GetObjectManager w.bus).2.1).2.1 with
            | none =>
              simp_all [Balanced, activePropertiesRegistrations,
                activeObjectManagerRegistrations, World.record]
            | some c =>
              simp_all [Balanced, activePropertiesRegistrations,
                activeObjectManagerRegistrations, World.record]
              omega
      · split
        · simp_all [Balanced, activePropertiesRegistrations, activeObjectManagerRegistrations,
            World.record]
        · next he =>
          cases hr : (B.omRegister w.bus a.objectManager).2.1 with
          | none =>
            simp_all [Balanced, activePropertiesRegistrations,
              activeObjectManagerRegistrations, World.record]
          | some c =>
            simp_all [Balanced, activePropertiesRegistrations,
              activeObjectManagerRegistrations, World.record]
            omega
  | cancel =>
    rcases cancel_ok B a w st1 hc with ⟨_, rfl⟩ | ⟨ch, s, hs, _, rfl⟩
    · exact ⟨hp, ho⟩
    · simp_all [Balanced, activePropertiesRegistrations, activeObjectManagerRegistrations]
      omega

/-- Every subscription operation keeps the active registrations equal to the
cached handles. -/
theorem Op.run_balanced {σ : Type} (B : Bus σ) (op : Op) (st : SimAccess1 × World σ)
    (h : Balanced st) : Balanced (op.run B st) := by
  rcases Op.run_cases B op st with hc | hc
  · exact Op.call_balanced B op st _ hc h
  · rw [hc]; exact h

/-- Every run of subscription operations keeps the active registrations equal
to the cached handles. -/
theorem runOps_balanced {σ : Type} (B : Bus σ) (ops : List Op) (st : SimAccess1 × World σ)
    (h : Balanced st) : Balanced (runOps B ops st) := by
  induction ops generalizing st with
  | nil => exact h
  | cons op rest ih => exact ih (op.run B st) (Op.run_balanced B op st h)

/-- A proxy fresh from `NewSimAccess1` at program start has no handle and no
registration. -/
theorem NewSimAccess1_balanced {σ : Type} (B : Bus σ) (s0 : σ) (objectPath : ObjectPath)
    (a0 : SimAccess1) (w0 : World σ)
    (hnew : NewSimAccess1 B objectPath (World.start s0) = .ok ((some a0, none), w0)) :
    Balanced (a0, w0) := by
  cases he : (B.GetProperties (World.start s0).bus
      (NewClient ⟨"org.bluez", SimAccess1Interface, objectPath, .SystemBus⟩) false).2.2 with
  | some e =>
    rw [NewSimAccess1_fails B objectPath (World.start s0) e he] at hnew
    simp at hnew
  | none =>
    rw [NewSimAccess1_succeeds B objectPath (World.start s0) he] at hnew
    simp only [GoResult.ok.injEq, Prod.mk.injEq, Option.some.injEq, and_true] at hnew
    obtain ⟨ha, hw⟩ := hnew
    subst ha
    subst hw
    simp [Balanced, activePropertiesRegistrations, activeObjectManagerRegistrations,
      World.start]

/-- The effects of a subscription operation that returns: the events it
appends; a Register is issued only from a nil handle; a handle is dropped only
with its sentinel sent (and, for the object manager, the channel unregistered). -/
theorem Op.call_effects {σ : Type} (B : Bus σ) (op : Op) (st st1 : SimAccess1 × World σ)
    (hc : op.call B st = .ok st1) :
    ∃ Δ : List Event,
      st1.2.trace = st.2.trace ++ Δ ∧
      (Δ.any Event.isClientRegister = true → st.1.propertiesSignal = none) ∧
      (Δ.any Event.isObjectManagerRegister = true → st.1.objectManagerSignal = none) ∧
      (∀ ch, st.1.propertiesSignal = some ch → st1.1.propertiesSignal ≠ some ch →
        Event.send .propertiesSignal ch none ∈ Δ) ∧
      (∀ ch, st.1.objectManagerSignal = some ch → st1.1.objectManagerSignal ≠ some ch →
        Event.send .objectManagerSignal ch none ∈ Δ ∧ Event.omUnregister ch ∈ Δ) := by
  obtain ⟨a, w⟩ := st
  cases op with
  | GetPropertiesSignal =>
    simp only [Op.call, GoResult.ok.injEq] at hc
    rw [← hc]
    simp only [SimAccess1.GetPropertiesSignal]
    split
    · next hs =>
      split
      · exact ⟨[_], rfl, by simp_all, by simp, by simp_all, by simp_all⟩
      · exact ⟨[_], rfl, by simp_all, by simp, by simp_all, by simp_all⟩
    · exact ⟨[], by simp, by simp, by simp, by simp_all, by simp_all⟩
  | unregisterPropertiesSignal =>
    rcases unregisterPropertiesSignal_ok B a w st1 hc with ⟨_, rfl⟩ | ⟨ch, s, hs, _, rfl⟩
    · exact ⟨[], by simp, by simp, by simp, by simp_all, by simp_all⟩
    · exact ⟨[_], rfl, by simp, by simp, by simp_all, by simp_all⟩
  | Close =>
    obtain ⟨st0, hu, rfl⟩ := Close_ok B a w st1 hc
    rcases unregisterPropertiesSignal_ok B a w st0 hu with ⟨_, rfl⟩ | ⟨ch, s, hs, _, rfl⟩
    · exact ⟨[_], rfl, by simp, by simp, by simp_all, by simp_all⟩
    · exact ⟨[.send .propertiesSignal ch none, .clientDisconnect],
        by simp, by simp, by simp, by simp_all, by simp_all⟩
  | GetObjectManagerSignal =>
    simp only [Op.call, GoResult.ok.injEq] at hc
    rw [← hc]
    simp only [SimAccess1.GetObjectManagerSignal]
    split
    · exact ⟨[], by simp, by simp, by simp, by simp_all, by simp_all⟩
    · next hs =>
      split
      · split
        · exact ⟨[_], rfl, by simp, by simp_all, by simp_all, by simp_all⟩
        · split
          · exact ⟨[.getObjectManager,
                .omRegister
                  (B.omRegister (B.GetObjectManager w.bus).1 (B.GetObjectManager w.bus).2.1).2.1
                  (B.omRegister (B.GetObjectManager w.bus).1 (B.GetObjectManager w.bus).2.1).2.2],
              by simp [World.record], by simp, by simp_all, by simp_all, by simp_all⟩
          · exact ⟨[.getObjectManager,
                .omRegister
                  (B.omRegister (B.GetObjectManager w.bus).1 (B.GetObjectManager w.bus).2.1).2.1
                  (B.omRegister (B.GetObjectManager w.bus).1 (B.GetObjectManager w.bus).2.1).2.2],
              by simp [World.record], by simp, by simp_all, by simp_all, by simp_all⟩
      · split
        · exact ⟨[_], rfl, by simp, by simp_all, by simp_all, by simp_all⟩
        · exact ⟨[_], rfl, by simp, by simp_all, by simp_all, by simp_all⟩
  | cancel =>
    rcases cancel_ok B a w st1 hc with ⟨_, rfl⟩ | ⟨ch, s, hs, _, rfl⟩
    · exact ⟨[], by simp, by simp, by simp, by simp_all, by simp_all⟩
    · exact ⟨[.send .objectManagerSignal ch none, .omUnregister ch],
        rfl, by simp, by simp, by simp_all, by simp_all⟩

/-- The effects of one subscription operation: the events it appends; a
Register is issued only from a nil handle; a handle is dropped only with its
sentinel sent (and, for the object manager, the channel unregistered). -/
theorem Op.run_effects {σ : Type} (B : Bus σ) (op : Op) (st : SimAccess1 × World σ) :
    ∃ Δ : List Event,
      (op.run B st).2.trace = st.2.trace ++ Δ ∧
      (Δ.any Event.isClientRegister = true → st.1.propertiesSignal = none) ∧
      (Δ.any Event.isObjectManagerRegister = true → st.1.objectManagerSignal = none) ∧
      (∀ ch, st.1.propertiesSignal = some ch → (op.run B st).1.propertiesSignal ≠ some ch →
        Event.send .propertiesSignal ch none ∈ Δ) ∧
      (∀ ch, st.1.objectManagerSignal = some ch →
        (op.run B st).1.objectManagerSignal ≠ some ch →
        Event.send .objectManagerSignal ch none ∈ Δ ∧ Event.omUnregister ch ∈ Δ) := by
  rcases Op.run_cases B op st with hc | hc
  · exact Op.call_effects B op st _ hc
  · rw [hc]
    exact ⟨[], by simp, by simp, by simp, fun ch h1 h2 => absurd h1 h2,
      fun ch h1 h2 => absurd h1 h2⟩

/-- C9: take a proxy fresh from NewSimAccess1 at program start and run any
sequence of GetPropertiesSignal, unregisterPropertiesSignal, Close,
GetObjectManagerSignal and cancel calls over any bus.  In the state reached,
the active property-change registrations (successful Registers less sentinels
sent) are one when the property-change handle is set and none when it is nil,
and likewise for the object manager: at most one of each.  Any next operation
issues a Register only when the corresponding handle is nil, and drops a handle
only after sending its nil sentinel (and, for the object manager, unregistering
the channel). -/
theorem at_most_one_registration {σ : Type} (B : Bus σ) (s0 : σ) (objectPath : ObjectPath)
    (a0 : SimAccess1) (w0 : World σ)
    (hnew : NewSimAccess1 B objectPath (World.start s0) = .ok ((some a0, none), w0))
    (ops : List Op) :
    activePropertiesRegistrations (runOps B ops (a0, w0)).2.trace =
      (if (runOps B ops (a0, w0)).1.propertiesSignal.isSome then 1 else 0) ∧
    activeObjectManagerRegistrations (runOps B ops (a0, w0)).2.trace =
      (if (runOps B ops (a0, w0)).1.objectManagerSignal.isSome then 1 else 0) ∧
    activePropertiesRegistrations (runOps B ops (a0, w0)).2.trace ≤ 1 ∧
    activeObjectManagerRegistrations (runOps B ops (a0, w0)).2.trace ≤ 1 ∧
    ∀ op : Op, ∃ Δ : List Event,
      (op.run B (runOps B ops (a0, w0))).2.trace = (runOps B ops (a0, w0)).2.trace ++ Δ ∧
      (Δ.any Event.isClientRegister = true →
        (runOps B ops (a0, w0)).1.propertiesSignal = none) ∧
      (Δ.any Event.isObjectManagerRegister = true →
        (runOps B ops (a0, w0)).1.objectManagerSignal = none) ∧
      (∀ ch, (runOps B ops (a0, w0)).1.propertiesSignal = some ch →
        (op.run B (runOps B ops (a0, w0))).1.propertiesSignal ≠ some ch →
        Event.send .propertiesSignal ch none ∈ Δ) ∧
      (∀ ch, (runOps B ops (a0, w0)).1.objectManagerSignal = some ch →
        (op.run B (runOps B ops (a0, w0))).1.objectManagerSignal ≠ some ch →
        Event.send .objectManagerSignal ch none ∈ Δ ∧ Event.omUnregister ch ∈ Δ) := by
  have hb := runOps_balanced B ops (a0, w0) (NewSimAccess1_balanced B s0 objectPath a0 w0 hnew)
  refine ⟨hb.1, hb.2, ?_, ?_, fun op => Op.run_effects B op _⟩
  · rw [hb.1]; split <;> decide
  · rw [hb.2]; split <;> decide

/-- Witness for C9: over the reconnecting test bus, subscribe twice to each
stream, cancel, close, subscribe again. -/
theorem at_most_one_registration_witness :
    NewSimAccess1 lazyBus hci0 (World.start (remote0 (.bool true))) =
      .ok ((some (proxy0 true), none),
           ⟨remote0 (.bool true), [.lock, .clientGetProperties, .unlock]⟩) ∧
    activePropertiesRegistrations
      (runOps lazyBus [.GetPropertiesSignal, .GetPropertiesSignal, .GetObjectManagerSignal,
          .GetObjectManagerSignal, .cancel, .cancel, .Close, .GetPropertiesSignal]
        (proxy0 true, ⟨remote0 (.bool true), [.lock, .clientGetProperties, .unlock]⟩)).2.trace
      ≤ 1 :=
  ⟨rfl, (at_most_one_registration lazyBus (remote0 (.bool true)) hci0 (proxy0 true)
    ⟨remote0 (.bool true), [.lock, .clientGetProperties, .unlock]⟩ rfl
    [.GetPropertiesSignal, .GetPropertiesSignal, .GetObjectManagerSignal,
      .GetObjectManagerSignal, .cancel, .cancel, .Close, .GetPropertiesSignal]).2.2.1⟩

end Sap
